import Mathlib

/-!
Shallow embedding of `sozu-acme` (`src/main.rs`): the control-channel order
loop (`order_command`), the compound operations `set_up_proxying`,
`remove_proxying` and `add_certificate`, and the ACME challenge responder
thread closure from `main`.

External collaborators (the sozu channel transport, the file store, the
fingerprint and chain-splitting functions from `sozu_command`, and the
thread-local RNG feeding `generate_id`) are modelled as parameters: the
channel is a script of `read_message` results, the RNG is a stream of id
strings indexed by a counter.
-/

/-- Status of an answer on the control channel,
from `sozu_command::data::ConfigMessageStatus`. -/
inductive ConfigMessageStatus
  | Processing
  | Error
  | Ok
deriving DecidableEq

/-- An answer read from the control channel,
from `sozu_command::data::ConfigMessageAnswer` (the fields used by `main.rs`). -/
structure ConfigMessageAnswer where
  id : String
  status : ConfigMessageStatus
  message : String
deriving DecidableEq

/-- `sozu_command::messages::HttpFront`. -/
structure HttpFront where
  app_id : String
  hostname : String
  path_begin : String
deriving DecidableEq

/-- `sozu_command::messages::HttpsFront`. -/
structure HttpsFront where
  app_id : String
  hostname : String
  path_begin : String
  fingerprint : List Nat
deriving DecidableEq

/-- `sozu_command::messages::Backend` (the fields set by `set_up_proxying`;
`load_balancing_parameters` and `sticky_id` are both set to `None` there). -/
structure Backend where
  app_id : String
  backend_id : String
  ip_address : String
  port : Nat
  load_balancing_parameters : Option Unit
  sticky_id : Option String
deriving DecidableEq

/-- `sozu_command::messages::RemoveBackend`. -/
structure RemoveBackendData where
  app_id : String
  backend_id : String
  ip_address : String
  port : Nat
deriving DecidableEq

/-- `sozu_command::messages::CertificateAndKey`. -/
structure CertificateAndKey where
  certificate : String
  certificate_chain : List String
  key : String
deriving DecidableEq

/-- `sozu_command::messages::AddCertificate`. -/
structure AddCertificateData where
  certificate : CertificateAndKey
  names : List String
deriving DecidableEq

/-- The `sozu_command::messages::Order` variants named in `main.rs`
(`AddHttpsFront` is matched by the catch-all arm of the success log). -/
inductive Order
  | AddHttpFront (front : HttpFront)
  | RemoveHttpFront (front : HttpFront)
  | AddBackend (backend : Backend)
  | RemoveBackend (backend : RemoveBackendData)
  | AddCertificate (cert : AddCertificateData)
  | RemoveCertificate (fingerprint : List Nat)
  | AddHttpsFront (front : HttpsFront)
deriving DecidableEq

/-- Outcome of running a piece of the sequencer: a Rust `panic!` aborts the
process, `value b` is a normal `bool` return, and `blocked` marks a run whose
channel script was exhausted while the code was still blocking on
`read_message` (the loop has no timeout). -/
inductive ROutcome
  | panicked (msg : String)
  | blocked
  | value (b : Bool)
deriving DecidableEq

/-- The success log line chosen by the `match order` in `order_command`
(`main.rs` lines 269-279); `AddHttpsFront` falls into the default arm,
which logs nothing. -/
def successLog (order : Order) (msg : String) : List String :=
  match order with
  | .AddBackend _ => ["backend added : " ++ msg]
  | .RemoveBackend _ => ["backend removed : " ++ msg ++ " "]
  | .AddCertificate _ => ["certificate added: " ++ msg]
  | .RemoveCertificate _ => ["certificate removed: " ++ msg]
  | .AddHttpFront _ => ["front added: " ++ msg]
  | .RemoveHttpFront _ => ["front removed: " ++ msg]
  | .AddHttpsFront _ => []

/-- The read loop of `order_command` (`main.rs` lines 251-285), applied to a
script of `channel.read_message()` results. `none` from `read_message` logs
an error and loops again (the `None` arm has no `return` or `break`); a
mismatched answer id panics; `Processing` loops; `Error` returns `false`;
`Ok` logs per order kind and returns `true`. Returns the outcome, the
unconsumed part of the script, and the log. -/
def order_loop (id : String) (order : Order) :
    List (Option ConfigMessageAnswer) → List String →
    ROutcome × List (Option ConfigMessageAnswer) × List String
  | [], log => (.blocked, [], log)
  | none :: rest, log =>
      order_loop id order rest (log ++ ["the proxy did not answer"])
  | some m :: rest, log =>
      if m.id ≠ id then
        (.panicked ("received message with invalid id: " ++ m.id), rest, log)
      else
        match m.status with
        | .Processing => order_loop id order rest log
        | .Error =>
            (.value false, rest, log ++ ["could not execute order: " ++ m.message])
        | .Ok => (.value true, rest, log ++ successLog order m.message)

/-- The mutable state threaded through the sequencer: the id stream standing
for `thread_rng` (with `next` the number of ids drawn so far), the script of
pending `read_message` results, the trace of envelopes written with
`channel.write_message`, and the log. -/
structure RunState where
  idGen : Nat → String
  next : Nat
  reads : List (Option ConfigMessageAnswer)
  sent : List (String × Order)
  log : List String

/-- `order_command` (`main.rs` lines 243-286): generate a fresh id, write
the envelope `(id, order)` to the channel, then run the read loop. -/
def order_command (st : RunState) (order : Order) : ROutcome × RunState :=
  let id := st.idGen st.next
  let r := order_loop id order st.reads (st.log)
  (r.1, { st with next := st.next + 1, reads := r.2.1,
                  sent := st.sent ++ [(id, order)], log := r.2.2 })

/-- Rust `&&` over two sequencer steps: the second step runs only when the
first returned `true`; a `false`, a panic or a block short-circuits. -/
def andAlso (first : ROutcome × RunState) (second : RunState → ROutcome × RunState) :
    ROutcome × RunState :=
  match first with
  | (.value true, st) => second st
  | other => other

/-- `set_up_proxying` (`main.rs` lines 176-190): `AddHttpFront` and then,
only if it succeeded, `AddBackend` with `backend_id = app_id ++ "-0"`. -/
def set_up_proxying (st : RunState) (app_id hostname path_begin : String)
    (server_ip : String) (server_port : Nat) : ROutcome × RunState :=
  andAlso
    (order_command st (Order.AddHttpFront
      { app_id := app_id, hostname := hostname, path_begin := path_begin }))
    (fun st1 => order_command st1 (Order.AddBackend
      { app_id := app_id, backend_id := app_id ++ "-0",
        ip_address := server_ip, port := server_port,
        load_balancing_parameters := none, sticky_id := none }))

/-- `remove_proxying` (`main.rs` lines 192-203): `RemoveHttpFront` and then,
only if it succeeded (Rust `&&` short-circuits), `RemoveBackend` with
`backend_id = app_id ++ "-0"`. -/
def remove_proxying (st : RunState) (app_id hostname path_begin : String)
    (server_ip : String) (server_port : Nat) : ROutcome × RunState :=
  andAlso
    (order_command st (Order.RemoveHttpFront
      { app_id := app_id, hostname := hostname, path_begin := path_begin }))
    (fun st1 => order_command st1 (Order.RemoveBackend
      { app_id := app_id, backend_id := app_id ++ "-0",
        ip_address := server_ip, port := server_port }))

/-- `add_certificate` (`main.rs` lines 205-241). The external collaborators
`Config::load_file`, `calculate_fingerprint` and `split_certificate_chain`
are explicit function parameters. Any load or fingerprint failure logs an
error and falls through to the final `false` without touching the channel;
otherwise the function issues `AddCertificate` and then, only if it
succeeded, `AddHttpsFront` bound to the computed fingerprint. -/
def add_certificate (load_file : String → Except String String)
    (calculate_fingerprint : String → Option (List Nat))
    (split_certificate_chain : String → List String)
    (st : RunState) (app_id hostname path_begin : String)
    (certificate_path chain_path key_path : String) : ROutcome × RunState :=
  match load_file certificate_path with
  | .ok certificate =>
    match calculate_fingerprint certificate with
    | none =>
        (.value false,
         { st with log := st.log ++ ["could not calculate fingerprint for certificate"] })
    | some fingerprint =>
      match (load_file chain_path).map split_certificate_chain with
      | .error e =>
          (.value false,
           { st with log := st.log ++ ["could not load certificate chain: " ++ e] })
      | .ok certificate_chain =>
        match load_file key_path with
        | .error e =>
            (.value false, { st with log := st.log ++ ["could not load key: " ++ e] })
        | .ok key =>
          andAlso
            (order_command st (Order.AddCertificate
              { certificate :=
                  { certificate := certificate,
                    certificate_chain := certificate_chain, key := key },
                names := [hostname] }))
            (fun st1 => order_command st1 (Order.AddHttpsFront
              { app_id := app_id, hostname := hostname,
                path_begin := path_begin, fingerprint := fingerprint }))
  | .error e =>
      (.value false, { st with log := st.log ++ ["could not load file: " ++ e] })

/-- The call to `add_certificate` made by `main` after a successful
validation (`main.rs` line 144): the hostname is the domain and the
`path_begin` argument is hard-coded to the empty string. -/
def main_add_certificate (load_file : String → Except String String)
    (calculate_fingerprint : String → Option (List Nat))
    (split_certificate_chain : String → List String)
    (st : RunState) (app_id domain : String)
    (certificate_path chain_path key_path : String) : ROutcome × RunState :=
  add_certificate load_file calculate_fingerprint split_certificate_chain
    st app_id domain "" certificate_path chain_path key_path

/-- One result of `server.recv()` in the responder thread: a request with
its URL, or a transport-level receive error. -/
inductive RecvEvent
  | req (url : String)
  | err (msg : String)
deriving DecidableEq

/-- A response written back by the responder thread: status code and body. -/
structure HttpResponse where
  status : Nat
  body : String
deriving DecidableEq

/-- The responder thread closure (`main.rs` lines 111-130), applied to a
script of `server.recv()` results. A receive error breaks the loop and the
closure returns `false`; a request whose URL equals the challenge `path` is
answered `200` with body `key_authorization` and the closure returns `true`;
any other request is answered `404 not found` and the loop continues.
Returns the responses written, in order, and `some` of the closure result
(`none` when the script ran out while the loop was still blocking). -/
def responder (path : String) (key_authorization : String) :
    List RecvEvent → List HttpResponse × Option Bool
  | [] => ([], none)
  | .err _ :: _ => ([], some false)
  | .req url :: rest =>
      if url = path then
        ([{ status := 200, body := key_authorization }], some true)
      else
        ({ status := 404, body := "not found" } :: (responder path key_authorization rest).1,
         (responder path key_authorization rest).2)

/-- The challenge path built by `main` (`main.rs` line 99). -/
def challenge_path (token : String) : String :=
  "/.well-known/acme-challenge/" ++ token

/-- A `read_message` result that does not terminate the `order_command`
loop: either `None`, or an answer with the matching id and `Processing`
status. -/
def nonTerminalRead (id : String) (r : Option ConfigMessageAnswer) : Prop :=
  r = none ∨ ∃ a, r = some a ∧ a.id = id ∧ a.status = ConfigMessageStatus.Processing

theorem order_loop_fst_log (id : String) (order : Order) :
    ∀ (reads : List (Option ConfigMessageAnswer)) (log1 log2 : List String),
      (order_loop id order reads log1).1 = (order_loop id order reads log2).1 := by
  intro reads
  induction reads with
  | nil => intro l1 l2; rfl
  | cons r rest ih =>
    intro l1 l2
    cases r with
    | none => simpa [order_loop] using ih _ _
    | some m =>
      by_cases h : m.id = id
      · cases hs : m.status
        · simpa [order_loop, h, hs] using ih l1 l2
        · simp [order_loop, h, hs]
        · simp [order_loop, h, hs]
      · simp [order_loop, h]

theorem order_loop_skip (id : String) (order : Order) :
    ∀ (pre : List (Option ConfigMessageAnswer)),
      (∀ r ∈ pre, nonTerminalRead id r) →
      ∀ (rest : List (Option ConfigMessageAnswer)) (log : List String),
        (order_loop id order (pre ++ rest) log).1 = (order_loop id order rest log).1 := by
  intro pre
  induction pre with
  | nil => intro _ rest log; rfl
  | cons r pre ih =>
    intro h rest log
    have hr := h r (by simp)
    have hpre : ∀ x ∈ pre, nonTerminalRead id x := fun x hx => h x (by simp [hx])
    rcases hr with hnone | ⟨a, ha, haid, hast⟩
    · subst hnone
      rw [List.cons_append]
      show (order_loop id order (pre ++ rest) (log ++ ["the proxy did not answer"])).1 = _
      rw [order_loop_fst_log id order (pre ++ rest) (log ++ ["the proxy did not answer"]) log]
      exact ih hpre rest log
    · subst ha
      rw [List.cons_append]
      simpa [order_loop, haid, hast] using ih hpre rest log

/-- C1: any answer actually received inside one `order_command` call (after a
prefix of non-terminal reads) whose id differs from the in-flight request id
makes the process panic with a descriptive message, and the call never
returns a normal boolean value. -/
theorem order_loop_mismatched_id_panics (id : String) (order : Order)
    (pre rest : List (Option ConfigMessageAnswer)) (log : List String)
    (m : ConfigMessageAnswer)
    (hpre : ∀ r ∈ pre, nonTerminalRead id r) (hm : m.id ≠ id) :
    (order_loop id order (pre ++ some m :: rest) log).1
      = ROutcome.panicked ("received message with invalid id: " ++ m.id)
    ∧ ∀ b, (order_loop id order (pre ++ some m :: rest) log).1 ≠ ROutcome.value b := by
  have hskip := order_loop_skip id order pre hpre (some m :: rest) log
  have hhead : (order_loop id order (some m :: rest) log).1
      = ROutcome.panicked ("received message with invalid id: " ++ m.id) := by
    simp [order_loop, hm]
  refine ⟨hskip.trans hhead, ?_⟩
  intro b
  rw [hskip.trans hhead]
  intro h
  exact ROutcome.noConfusion h

/-- Closed witness for `order_loop_mismatched_id_panics`: a `None` read
followed by an answer with id `ID-bad` while `ID-abc` is in flight. -/
theorem order_loop_mismatched_id_panics_witness :
    (order_loop "ID-abc"
        (Order.AddHttpFront { app_id := "app", hostname := "h", path_begin := "/p" })
        ([none] ++ some { id := "ID-bad", status := ConfigMessageStatus.Ok,
                          message := "" } :: []) []).1
      = ROutcome.panicked ("received message with invalid id: " ++ "ID-bad") :=
  (order_loop_mismatched_id_panics "ID-abc"
    (Order.AddHttpFront { app_id := "app", hostname := "h", path_begin := "/p" })
    [none] [] []
    { id := "ID-bad", status := ConfigMessageStatus.Ok, message := "" }
    (by intro r hr; simp at hr; subst hr; exact Or.inl rfl)
    (by decide)).1

/-- C2 counterexample: a `None` from `read_message` does not make
`order_command` return `false`. On the script `[none]` (channel closed, every
read fails) the loop never terminates (it stays blocked, re-reading), and on
`[none, Ok]` it keeps reading past the `None` and returns `true` — contrary
to the claimed `AWAITING_ANSWER → (channel closed) → DONE_FAILURE`
transition. -/
theorem order_loop_none_cex :
    ((order_loop "ID-abc"
        (Order.AddHttpFront { app_id := "app", hostname := "h", path_begin := "/p" })
        [none] []).1 = ROutcome.blocked)
    ∧ ((order_loop "ID-abc"
        (Order.AddHttpFront { app_id := "app", hostname := "h", path_begin := "/p" })
        [none, some { id := "ID-abc", status := ConfigMessageStatus.Ok, message := "done" }]
        []).1 = ROutcome.value true)
    ∧ ((order_loop "ID-abc"
        (Order.AddHttpFront { app_id := "app", hostname := "h", path_begin := "/p" })
        [none, some { id := "ID-abc", status := ConfigMessageStatus.Ok, message := "done" }]
        []).1 ≠ ROutcome.value false) := by
  refine ⟨rfl, ?_, ?_⟩ <;> decide

/-- C2 amended: when `read_message` yields `None`, the loop logs
"the proxy did not answer" and continues reading; it does not return. -/
theorem order_loop_none_logs_and_continues (id : String) (order : Order)
    (rest : List (Option ConfigMessageAnswer)) (log : List String) :
    order_loop id order (none :: rest) log
      = order_loop id order rest (log ++ ["the proxy did not answer"]) := rfl

/-- C4: for an answer carrying the matching request id, `Ok` returns `true`,
`Error` returns `false`, and `Processing` never terminates the loop by
itself — the loop goes on reading the remaining script unchanged. -/
theorem order_loop_status_classification (id : String) (order : Order)
    (m : ConfigMessageAnswer) (rest : List (Option ConfigMessageAnswer))
    (log : List String) (hid : m.id = id) :
    (m.status = ConfigMessageStatus.Ok →
      (order_loop id order (some m :: rest) log).1 = ROutcome.value true)
    ∧ (m.status = ConfigMessageStatus.Error →
      (order_loop id order (some m :: rest) log).1 = ROutcome.value false)
    ∧ (m.status = ConfigMessageStatus.Processing →
      order_loop id order (some m :: rest) log = order_loop id order rest log) := by
  refine ⟨?_, ?_, ?_⟩ <;> intro hs <;> simp [order_loop, hid, hs]

/-- Closed witness for `order_loop_status_classification` at the three
statuses on concrete answers. -/
theorem order_loop_status_classification_witness :
    ((order_loop "ID-x" (Order.RemoveBackend
        { app_id := "a", backend_id := "a-0", ip_address := "127.0.0.1", port := 80 })
        [some { id := "ID-x", status := ConfigMessageStatus.Ok, message := "m" }] []).1
      = ROutcome.value true)
    ∧ ((order_loop "ID-x" (Order.RemoveBackend
        { app_id := "a", backend_id := "a-0", ip_address := "127.0.0.1", port := 80 })
        [some { id := "ID-x", status := ConfigMessageStatus.Error, message := "m" }] []).1
      = ROutcome.value false)
    ∧ (order_loop "ID-x" (Order.RemoveBackend
        { app_id := "a", backend_id := "a-0", ip_address := "127.0.0.1", port := 80 })
        (some { id := "ID-x", status := ConfigMessageStatus.Processing, message := "m" } :: [])
        []
      = order_loop "ID-x" (Order.RemoveBackend
        { app_id := "a", backend_id := "a-0", ip_address := "127.0.0.1", port := 80 }) [] []) :=
  ⟨(order_loop_status_classification "ID-x" _ _ [] [] rfl).1 rfl,
   (order_loop_status_classification "ID-x" _ _ [] [] rfl).2.1 rfl,
   (order_loop_status_classification "ID-x" _ _ [] [] rfl).2.2 rfl⟩

theorem order_command_sent (st : RunState) (order : Order) :
    (order_command st order).2.sent = st.sent ++ [(st.idGen st.next, order)] := rfl

theorem order_command_fst (st : RunState) (order : Order) :
    (order_command st order).1
      = (order_loop (st.idGen st.next) order st.reads st.log).1 := rfl

theorem andAlso_eq_of_true (p : ROutcome × RunState) (f : RunState → ROutcome × RunState)
    (h : p.1 = ROutcome.value true) : andAlso p f = f p.2 := by
  rcases p with ⟨o, st⟩
  cases h
  rfl

theorem andAlso_eq_of_not_true (p : ROutcome × RunState) (f : RunState → ROutcome × RunState)
    (h : p.1 ≠ ROutcome.value true) : andAlso p f = p := by
  rcases p with ⟨o, st⟩
  cases o with
  | panicked m => rfl
  | blocked => rfl
  | value b =>
    cases b with
    | false => rfl
    | true => exact absurd rfl h

theorem andAlso_fst_true_iff (p : ROutcome × RunState) (f : RunState → ROutcome × RunState) :
    (andAlso p f).1 = ROutcome.value true ↔
      p.1 = ROutcome.value true ∧ (f p.2).1 = ROutcome.value true := by
  rcases p with ⟨o, st⟩
  cases o with
  | panicked m => simp [andAlso]
  | blocked => simp [andAlso]
  | value b => cases b <;> simp [andAlso]

/-- C5: `set_up_proxying` issues `AddHttpFront` first; if that order fails
the run stops there — the result is `false` and the sent trace holds only
the `AddHttpFront` envelope, never an `AddBackend` one; if it succeeds the
`AddBackend` order follows; and the overall result is `true` exactly when
both orders returned `true`. -/
theorem set_up_proxying_spec (st : RunState) (app_id hostname path_begin ip : String)
    (port : Nat) :
    ((order_command st (Order.AddHttpFront
        { app_id := app_id, hostname := hostname, path_begin := path_begin })).1
        = ROutcome.value true →
      set_up_proxying st app_id hostname path_begin ip port
        = order_command (order_command st (Order.AddHttpFront
            { app_id := app_id, hostname := hostname, path_begin := path_begin })).2
            (Order.AddBackend
              { app_id := app_id, backend_id := app_id ++ "-0",
                ip_address := ip, port := port,
                load_balancing_parameters := none, sticky_id := none }))
    ∧ ((order_command st (Order.AddHttpFront
        { app_id := app_id, hostname := hostname, path_begin := path_begin })).1
        = ROutcome.value false →
      (set_up_proxying st app_id hostname path_begin ip port).1 = ROutcome.value false
      ∧ (set_up_proxying st app_id hostname path_begin ip port).2.sent
        = st.sent ++ [(st.idGen st.next, Order.AddHttpFront
            { app_id := app_id, hostname := hostname, path_begin := path_begin })])
    ∧ ((set_up_proxying st app_id hostname path_begin ip port).1 = ROutcome.value true ↔
      (order_command st (Order.AddHttpFront
        { app_id := app_id, hostname := hostname, path_begin := path_begin })).1
        = ROutcome.value true
      ∧ (order_command (order_command st (Order.AddHttpFront
            { app_id := app_id, hostname := hostname, path_begin := path_begin })).2
            (Order.AddBackend
              { app_id := app_id, backend_id := app_id ++ "-0",
                ip_address := ip, port := port,
                load_balancing_parameters := none, sticky_id := none })).1
        = ROutcome.value true) := by
  refine ⟨?_, ?_, ?_⟩
  · intro h
    exact andAlso_eq_of_true _ _ h
  · intro h
    have hne : (order_command st (Order.AddHttpFront
        { app_id := app_id, hostname := hostname, path_begin := path_begin })).1
        ≠ ROutcome.value true := by
      rw [h]; intro hc; cases hc
    have heq := andAlso_eq_of_not_true
      (order_command st (Order.AddHttpFront
        { app_id := app_id, hostname := hostname, path_begin := path_begin }))
      (fun st1 => order_command st1 (Order.AddBackend
        { app_id := app_id, backend_id := app_id ++ "-0",
          ip_address := ip, port := port,
          load_balancing_parameters := none, sticky_id := none })) hne
    constructor
    · show (andAlso _ _).1 = _
      rw [heq, h]
    · show (andAlso _ _).2.sent = _
      rw [heq, order_command_sent]
  · exact andAlso_fst_true_iff _ _

/-- Closed witness for `set_up_proxying_spec`: a run whose two orders are
both answered `Ok` returns `true`, and a run whose `AddHttpFront` is
answered `Error` returns `false` with only the front envelope sent. -/
theorem set_up_proxying_spec_witness :
    ((set_up_proxying
        { idGen := fun n => if n = 0 then "ID-1" else "ID-2", next := 0,
          reads := [some { id := "ID-1", status := ConfigMessageStatus.Ok, message := "" },
                    some { id := "ID-2", status := ConfigMessageStatus.Ok, message := "" }],
          sent := [], log := [] }
        "app" "example.test" "/.well-known/acme-challenge/tok1" "127.0.0.1" 51000).1
      = ROutcome.value true)
    ∧ ((set_up_proxying
        { idGen := fun _ => "ID-9", next := 0,
          reads := [some { id := "ID-9", status := ConfigMessageStatus.Error,
                           message := "duplicate" }],
          sent := [], log := [] }
        "app" "example.test" "/.well-known/acme-challenge/tok1" "127.0.0.1" 51000).2.sent
      = [("ID-9", Order.AddHttpFront
          { app_id := "app", hostname := "example.test",
            path_begin := "/.well-known/acme-challenge/tok1" })]) :=
  ⟨(set_up_proxying_spec
      { idGen := fun n => if n = 0 then "ID-1" else "ID-2", next := 0,
        reads := [some { id := "ID-1", status := ConfigMessageStatus.Ok, message := "" },
                  some { id := "ID-2", status := ConfigMessageStatus.Ok, message := "" }],
        sent := [], log := [] }
      "app" "example.test" "/.well-known/acme-challenge/tok1" "127.0.0.1" 51000).2.2.mpr
    ⟨by decide, by decide⟩,
   by
    have h := ((set_up_proxying_spec
      { idGen := fun _ => "ID-9", next := 0,
        reads := [some { id := "ID-9", status := ConfigMessageStatus.Error,
                         message := "duplicate" }],
        sent := [], log := [] }
      "app" "example.test" "/.well-known/acme-challenge/tok1" "127.0.0.1" 51000).2.1
      (by decide)).2
    simpa using h⟩

/-- C3 counterexample: in a run where the `RemoveHttpFront` order is
answered `Error`, `remove_proxying` sends only the `RemoveHttpFront`
envelope — the sent trace is that singleton, so no `RemoveBackend` envelope
is ever written — and returns `false`. This falsifies the claim that both
teardown commands are issued regardless of individual outcomes: Rust `&&`
short-circuits exactly as in `set_up_proxying`. -/
theorem remove_proxying_short_circuit_cex :
    ((remove_proxying
        { idGen := fun _ => "ID-7", next := 0,
          reads := [some { id := "ID-7", status := ConfigMessageStatus.Error,
                           message := "no such front" }],
          sent := [], log := [] }
        "app" "example.test" "/.well-known/acme-challenge/tok1" "127.0.0.1" 51000).2.sent
      = [("ID-7", Order.RemoveHttpFront
          { app_id := "app", hostname := "example.test",
            path_begin := "/.well-known/acme-challenge/tok1" })])
    ∧ ((remove_proxying
        { idGen := fun _ => "ID-7", next := 0,
          reads := [some { id := "ID-7", status := ConfigMessageStatus.Error,
                           message := "no such front" }],
          sent := [], log := [] }
        "app" "example.test" "/.well-known/acme-challenge/tok1" "127.0.0.1" 51000).1
      = ROutcome.value false) := by
  constructor <;> decide

/-- C3 amended: `remove_proxying` issues `RemoveHttpFront` first and issues
`RemoveBackend` only when the `RemoveHttpFront` order succeeded (the Rust
`&&` short-circuits, as in `set_up_proxying`); a failed `RemoveHttpFront`
makes `remove_proxying` return `false` normally — non-fatal to the caller —
with only the front envelope sent; and the overall result is `true` exactly
when both orders returned `true`. -/
theorem remove_proxying_spec (st : RunState) (app_id hostname path_begin ip : String)
    (port : Nat) :
    ((order_command st (Order.RemoveHttpFront
        { app_id := app_id, hostname := hostname, path_begin := path_begin })).1
        = ROutcome.value true →
      remove_proxying st app_id hostname path_begin ip port
        = order_command (order_command st (Order.RemoveHttpFront
            { app_id := app_id, hostname := hostname, path_begin := path_begin })).2
            (Order.RemoveBackend
              { app_id := app_id, backend_id := app_id ++ "-0",
                ip_address := ip, port := port }))
    ∧ ((order_command st (Order.RemoveHttpFront
        { app_id := app_id, hostname := hostname, path_begin := path_begin })).1
        = ROutcome.value false →
      (remove_proxying st app_id hostname path_begin ip port).1 = ROutcome.value false
      ∧ (remove_proxying st app_id hostname path_begin ip port).2.sent
        = st.sent ++ [(st.idGen st.next, Order.RemoveHttpFront
            { app_id := app_id, hostname := hostname, path_begin := path_begin })])
    ∧ ((remove_proxying st app_id hostname path_begin ip port).1 = ROutcome.value true ↔
      (order_command st (Order.RemoveHttpFront
        { app_id := app_id, hostname := hostname, path_begin := path_begin })).1
        = ROutcome.value true
      ∧ (order_command (order_command st (Order.RemoveHttpFront
            { app_id := app_id, hostname := hostname, path_begin := path_begin })).2
            (Order.RemoveBackend
              { app_id := app_id, backend_id := app_id ++ "-0",
                ip_address := ip, port := port })).1
        = ROutcome.value true) := by
  refine ⟨?_, ?_, ?_⟩
  · intro h
    exact andAlso_eq_of_true _ _ h
  · intro h
    have hne : (order_command st (Order.RemoveHttpFront
        { app_id := app_id, hostname := hostname, path_begin := path_begin })).1
        ≠ ROutcome.value true := by
      rw [h]; intro hc; cases hc
    have heq := andAlso_eq_of_not_true
      (order_command st (Order.RemoveHttpFront
        { app_id := app_id, hostname := hostname, path_begin := path_begin }))
      (fun st1 => order_command st1 (Order.RemoveBackend
        { app_id := app_id, backend_id := app_id ++ "-0",
          ip_address := ip, port := port })) hne
    constructor
    · show (andAlso _ _).1 = _
      rw [heq, h]
    · show (andAlso _ _).2.sent = _
      rw [heq, order_command_sent]
  · exact andAlso_fst_true_iff _ _

/-- Closed witness for `remove_proxying_spec`: a run whose two orders are
both answered `Ok` returns `true`, and a run whose `RemoveHttpFront` is
answered `Error` returns `false`. -/
theorem remove_proxying_spec_witness :
    ((remove_proxying
        { idGen := fun n => if n = 0 then "ID-1" else "ID-2", next := 0,
          reads := [some { id := "ID-1", status := ConfigMessageStatus.Ok, message := "" },
                    some { id := "ID-2", status := ConfigMessageStatus.Ok, message := "" }],
          sent := [], log := [] }
        "app" "example.test" "/p" "127.0.0.1" 51000).1
      = ROutcome.value true)
    ∧ ((remove_proxying
        { idGen := fun _ => "ID-8", next := 0,
          reads := [some { id := "ID-8", status := ConfigMessageStatus.Error,
                           message := "x" }],
          sent := [], log := [] }
        "app" "example.test" "/p" "127.0.0.1" 51000).1
      = ROutcome.value false) :=
  ⟨(remove_proxying_spec
      { idGen := fun n => if n = 0 then "ID-1" else "ID-2", next := 0,
        reads := [some { id := "ID-1", status := ConfigMessageStatus.Ok, message := "" },
                  some { id := "ID-2", status := ConfigMessageStatus.Ok, message := "" }],
        sent := [], log := [] }
      "app" "example.test" "/p" "127.0.0.1" 51000).2.2.mpr
    ⟨by decide, by decide⟩,
   ((remove_proxying_spec
      { idGen := fun _ => "ID-8", next := 0,
        reads := [some { id := "ID-8", status := ConfigMessageStatus.Error,
                         message := "x" }],
        sent := [], log := [] }
      "app" "example.test" "/p" "127.0.0.1" 51000).2.1 (by decide)).1⟩

/-- C6: `add_certificate` returns `false` without touching the channel (state
apart from the log is unchanged) when loading the certificate, chain or key
fails or when the fingerprint cannot be computed; otherwise it issues
`AddCertificate` and then `AddHttpsFront` bound to the computed fingerprint,
the https-front order is not sent when the `AddCertificate` order fails, and
the overall result is `true` exactly when both orders returned `true`. -/
theorem add_certificate_spec (lf : String → Except String String)
    (cfp : String → Option (List Nat)) (scc : String → List String)
    (st : RunState) (app_id hostname path_begin cp chp kp : String) :
    (∀ e, lf cp = Except.error e →
      add_certificate lf cfp scc st app_id hostname path_begin cp chp kp
        = (ROutcome.value false,
           { st with log := st.log ++ ["could not load file: " ++ e] }))
    ∧ (∀ c, lf cp = Except.ok c → cfp c = none →
      add_certificate lf cfp scc st app_id hostname path_begin cp chp kp
        = (ROutcome.value false,
           { st with log := st.log ++ ["could not calculate fingerprint for certificate"] }))
    ∧ (∀ c fp e, lf cp = Except.ok c → cfp c = some fp → lf chp = Except.error e →
      add_certificate lf cfp scc st app_id hostname path_begin cp chp kp
        = (ROutcome.value false,
           { st with log := st.log ++ ["could not load certificate chain: " ++ e] }))
    ∧ (∀ c fp ch e, lf cp = Except.ok c → cfp c = some fp → lf chp = Except.ok ch →
        lf kp = Except.error e →
      add_certificate lf cfp scc st app_id hostname path_begin cp chp kp
        = (ROutcome.value false,
           { st with log := st.log ++ ["could not load key: " ++ e] }))
    ∧ (∀ c fp ch k, lf cp = Except.ok c → cfp c = some fp → lf chp = Except.ok ch →
        lf kp = Except.ok k →
      ((order_command st (Order.AddCertificate
          { certificate := { certificate := c, certificate_chain := scc ch, key := k },
            names := [hostname] })).1 = ROutcome.value true →
        add_certificate lf cfp scc st app_id hostname path_begin cp chp kp
          = order_command (order_command st (Order.AddCertificate
              { certificate := { certificate := c, certificate_chain := scc ch, key := k },
                names := [hostname] })).2
              (Order.AddHttpsFront
                { app_id := app_id, hostname := hostname,
                  path_begin := path_begin, fingerprint := fp }))
      ∧ ((order_command st (Order.AddCertificate
          { certificate := { certificate := c, certificate_chain := scc ch, key := k },
            names := [hostname] })).1 = ROutcome.value false →
        (add_certificate lf cfp scc st app_id hostname path_begin cp chp kp).1
          = ROutcome.value false
        ∧ (add_certificate lf cfp scc st app_id hostname path_begin cp chp kp).2.sent
          = st.sent ++ [(st.idGen st.next, Order.AddCertificate
              { certificate := { certificate := c, certificate_chain := scc ch, key := k },
                names := [hostname] })])
      ∧ ((add_certificate lf cfp scc st app_id hostname path_begin cp chp kp).1
          = ROutcome.value true ↔
        (order_command st (Order.AddCertificate
          { certificate := { certificate := c, certificate_chain := scc ch, key := k },
            names := [hostname] })).1 = ROutcome.value true
        ∧ (order_command (order_command st (Order.AddCertificate
            { certificate := { certificate := c, certificate_chain := scc ch, key := k },
              names := [hostname] })).2
            (Order.AddHttpsFront
              { app_id := app_id, hostname := hostname,
                path_begin := path_begin, fingerprint := fp })).1
          = ROutcome.value true)) := by
  refine ⟨?_, ?_, ?_, ?_, ?_⟩
  · intro e he
    simp [add_certificate, he]
  · intro c hc hfp
    simp [add_certificate, hc, hfp]
  · intro c fp e hc hfp hch
    simp [add_certificate, hc, hfp, hch, Except.map]
  · intro c fp ch e hc hfp hch hk
    simp [add_certificate, hc, hfp, hch, hk, Except.map]
  · intro c fp ch k hc hfp hch hk
    have hrun : add_certificate lf cfp scc st app_id hostname path_begin cp chp kp
        = andAlso (order_command st (Order.AddCertificate
            { certificate := { certificate := c, certificate_chain := scc ch, key := k },
              names := [hostname] }))
          (fun st1 => order_command st1 (Order.AddHttpsFront
            { app_id := app_id, hostname := hostname,
              path_begin := path_begin, fingerprint := fp })) := by
      simp [add_certificate, hc, hfp, hch, hk, Except.map]
    refine ⟨?_, ?_, ?_⟩
    · intro h
      rw [hrun]
      exact andAlso_eq_of_true _ _ h
    · intro h
      have hne : (order_command st (Order.AddCertificate
          { certificate := { certificate := c, certificate_chain := scc ch, key := k },
            names := [hostname] })).1 ≠ ROutcome.value true := by
        rw [h]; intro hx; cases hx
      have heq := andAlso_eq_of_not_true _
        (fun st1 => order_command st1 (Order.AddHttpsFront
          { app_id := app_id, hostname := hostname,
            path_begin := path_begin, fingerprint := fp })) hne
      rw [hrun, heq]
      exact ⟨h, order_command_sent st _⟩
    · rw [hrun]
      exact andAlso_fst_true_iff _ _

/-- A concrete file store for the closed witnesses: three named files
resolve, everything else is a load error. -/
def demo_load_file : String → Except String String := fun p =>
  if p = "cert.pem" then Except.ok "CERT"
  else if p = "chain.pem" then Except.ok "CHAIN"
  else if p = "key.pem" then Except.ok "KEY"
  else Except.error "missing"

/-- A concrete fingerprint function for the closed witnesses. -/
def demo_fingerprint : String → Option (List Nat) := fun c =>
  if c = "CERT" then some [18, 52] else none

/-- A concrete chain splitter for the closed witnesses. -/
def demo_split_chain : String → List String := fun ch => [ch]

/-- Closed witness for `add_certificate_spec`: a missing certificate file
yields `false` with nothing written to the channel, and a run with all
loads succeeding and both orders answered `Ok` returns `true`. -/
theorem add_certificate_spec_witness :
    ((add_certificate demo_load_file demo_fingerprint demo_split_chain
        { idGen := fun _ => "ID-1", next := 0, reads := [], sent := [], log := [] }
        "app" "example.test" "" "nope.pem" "chain.pem" "key.pem").2.sent = [])
    ∧ ((add_certificate demo_load_file demo_fingerprint demo_split_chain
        { idGen := fun n => if n = 0 then "ID-1" else "ID-2", next := 0,
          reads := [some { id := "ID-1", status := ConfigMessageStatus.Ok, message := "" },
                    some { id := "ID-2", status := ConfigMessageStatus.Ok, message := "" }],
          sent := [], log := [] }
        "app" "example.test" "" "cert.pem" "chain.pem" "key.pem").1
      = ROutcome.value true) :=
  ⟨by
    have h := (add_certificate_spec demo_load_file demo_fingerprint demo_split_chain
      { idGen := fun _ => "ID-1", next := 0, reads := [], sent := [], log := [] }
      "app" "example.test" "" "nope.pem" "chain.pem" "key.pem").1 "missing" rfl
    rw [h],
   (add_certificate_spec demo_load_file demo_fingerprint demo_split_chain
      { idGen := fun n => if n = 0 then "ID-1" else "ID-2", next := 0,
        reads := [some { id := "ID-1", status := ConfigMessageStatus.Ok, message := "" },
                  some { id := "ID-2", status := ConfigMessageStatus.Ok, message := "" }],
        sent := [], log := [] }
      "app" "example.test" "" "cert.pem" "chain.pem" "key.pem").2.2.2.2
      "CERT" [18, 52] "CHAIN" "KEY" rfl rfl rfl rfl
    |>.2.2.mpr ⟨by decide, by decide⟩⟩

theorem append_ne_left (p s : String) (hs : s ≠ "") : p ++ s ≠ p := by
  intro hc
  have hd : (p ++ s).data = p.data := congrArg String.data hc
  rw [String.data_append] at hd
  have hnil : s.data = [] :=
    List.append_cancel_left (hd.trans (List.append_nil p.data).symm)
  exact hs (String.ext (by simpa using hnil))

/-- C7: the responder answers a request at the challenge path with `200` and
body `keyAuthorization` and stops with success, answers any other request
`404` and continues serving, stops with failure on a receive error, and in
particular answers a non-matching then a matching request with `404` then
`200` and never answers a third request. -/
theorem responder_spec (path ka : String) :
    (∀ msg rest, responder path ka (RecvEvent.err msg :: rest) = ([], some false))
    ∧ (∀ rest, responder path ka (RecvEvent.req path :: rest)
        = ([{ status := 200, body := ka }], some true))
    ∧ (∀ url rest, url ≠ path → responder path ka (RecvEvent.req url :: rest)
        = ({ status := 404, body := "not found" } :: (responder path ka rest).1,
           (responder path ka rest).2))
    ∧ (∀ url1 url3 rest, url1 ≠ path →
        responder path ka
            (RecvEvent.req url1 :: RecvEvent.req path :: RecvEvent.req url3 :: rest)
          = ([{ status := 404, body := "not found" }, { status := 200, body := ka }],
             some true)) := by
  refine ⟨fun msg rest => rfl, fun rest => by simp [responder], ?_, ?_⟩
  · intro url rest h
    simp [responder, h]
  · intro url1 url3 rest h
    simp [responder, h]

/-- Closed witness for `responder_spec`: a request to a wrong path, then the
challenge path, then a third request — answered `404` then `200`, with the
third request never answered and the thread returning `true`. -/
theorem responder_spec_witness :
    responder "/.well-known/acme-challenge/tok1" "tok1.acct"
        [RecvEvent.req "/other", RecvEvent.req "/.well-known/acme-challenge/tok1",
         RecvEvent.req "/third"]
      = ([{ status := 404, body := "not found" }, { status := 200, body := "tok1.acct" }],
         some true) :=
  (responder_spec "/.well-known/acme-challenge/tok1" "tok1.acct").2.2.2
    "/other" "/third" [] (by decide)

/-- C9: the responder matches by exact string equality of the full request
URL against the challenge path: any URL extending the challenge path by a
nonempty suffix — a trailing slash, a query string, or any URL with the
challenge path as a proper prefix — differs from it and is answered `404`,
with serving continuing. -/
theorem responder_exact_match_only (token ka s : String) (rest : List RecvEvent)
    (hs : s ≠ "") :
    challenge_path token ++ s ≠ challenge_path token
    ∧ responder (challenge_path token) ka
        (RecvEvent.req (challenge_path token ++ s) :: rest)
      = ({ status := 404, body := "not found" } ::
          (responder (challenge_path token) ka rest).1,
         (responder (challenge_path token) ka rest).2) := by
  have hne := append_ne_left (challenge_path token) s hs
  exact ⟨hne, by simp [responder, hne]⟩

/-- Closed witness for `responder_exact_match_only`: the challenge URL for
token `tok1` with a trailing slash is answered `404`. -/
theorem responder_exact_match_only_witness :
    responder (challenge_path "tok1") "ka"
        [RecvEvent.req (challenge_path "tok1" ++ "/")]
      = ([{ status := 404, body := "not found" }], none) :=
  ((responder_exact_match_only "tok1" "ka" "/" [] (by decide)).2).trans rfl

/-- C10: every envelope written by the `add_certificate` call made from
`main` after a successful validation (hostname = the domain, `path_begin`
hard-coded to `""`) satisfies: an `AddHttpsFront` order carries the empty
path prefix and the domain as hostname, and an `AddCertificate` order
carries exactly `[domain]` as its name list. -/
theorem main_add_certificate_route_values (lf : String → Except String String)
    (cfp : String → Option (List Nat)) (scc : String → List String)
    (g : Nat → String) (n : Nat) (reads : List (Option ConfigMessageAnswer))
    (log : List String) (app_id domain cp chp kp : String) :
    ∀ e ∈ (main_add_certificate lf cfp scc
        { idGen := g, next := n, reads := reads, sent := [], log := log }
        app_id domain cp chp kp).2.sent,
      (∀ f, e.2 = Order.AddHttpsFront f → f.path_begin = "" ∧ f.hostname = domain)
      ∧ (∀ cert, e.2 = Order.AddCertificate cert → cert.names = [domain]) := by
  intro e he
  unfold main_add_certificate add_certificate at he
  cases hcert : lf cp with
  | error er => rw [hcert] at he; simp at he
  | ok c =>
    rw [hcert] at he
    simp only [] at he
    cases hfp : cfp c with
    | none => rw [hfp] at he; simp at he
    | some fp =>
      rw [hfp] at he
      simp only [] at he
      cases hch : (lf chp).map scc with
      | error er => rw [hch] at he; simp at he
      | ok chain =>
        rw [hch] at he
        simp only [] at he
        cases hk : lf kp with
        | error er => rw [hk] at he; simp at he
        | ok k =>
          rw [hk] at he
          simp only [] at he
          by_cases hout : (order_command
              { idGen := g, next := n, reads := reads, sent := [], log := log }
              (Order.AddCertificate
                { certificate := { certificate := c, certificate_chain := chain, key := k },
                  names := [domain] })).1 = ROutcome.value true
          · rw [andAlso_eq_of_true _ _ hout, order_command_sent, order_command_sent] at he
            simp at he
            rcases he with he | he
            · rw [he]
              refine ⟨fun f hf => Order.noConfusion hf, fun cert hc => ?_⟩
              injection hc with h1
              rw [← h1]
            · rw [he]
              refine ⟨fun f hf => ?_, fun cert hc => Order.noConfusion hc⟩
              injection hf with h1
              rw [← h1]
              exact ⟨rfl, rfl⟩
          · rw [andAlso_eq_of_not_true _ _ hout, order_command_sent] at he
            simp at he
            rw [he]
            refine ⟨fun f hf => Order.noConfusion hf, fun cert hc => ?_⟩
            injection hc with h1
            rw [← h1]

/-- Closed witness for `main_add_certificate_route_values`: in a successful
concrete run the `AddHttpsFront` envelope has the empty path prefix and the
domain as hostname. -/
theorem main_add_certificate_route_values_witness :
    ({ app_id := "app", hostname := "example.test", path_begin := "",
       fingerprint := [18, 52] } : HttpsFront).path_begin = ""
    ∧ ({ app_id := "app", hostname := "example.test", path_begin := "",
         fingerprint := [18, 52] } : HttpsFront).hostname = "example.test" :=
  (main_add_certificate_route_values demo_load_file demo_fingerprint demo_split_chain
      (fun n => if n = 0 then "ID-1" else "ID-2") 0
      [some { id := "ID-1", status := ConfigMessageStatus.Ok, message := "" },
       some { id := "ID-2", status := ConfigMessageStatus.Ok, message := "" }]
      [] "app" "example.test" "cert.pem" "chain.pem" "key.pem"
      ("ID-2", Order.AddHttpsFront
        { app_id := "app", hostname := "example.test", path_begin := "",
          fingerprint := [18, 52] })
      (by decide)).1
    { app_id := "app", hostname := "example.test", path_begin := "",
      fingerprint := [18, 52] } rfl

/-- C8: every `AddBackend` envelope sent by `set_up_proxying` and every
`RemoveBackend` envelope sent by `remove_proxying` for the same `app_id`
carry the backend id `app_id ++ "-0"`, so add/remove pairs for the same
logical target always agree. -/
theorem backend_id_agreement (app_id hostname1 hostname2 path1 path2 ip1 ip2 : String)
    (port1 port2 : Nat) (g1 g2 : Nat → String) (n1 n2 : Nat)
    (reads1 reads2 : List (Option ConfigMessageAnswer)) (log1 log2 : List String) :
    (∀ e ∈ (set_up_proxying
        { idGen := g1, next := n1, reads := reads1, sent := [], log := log1 }
        app_id hostname1 path1 ip1 port1).2.sent,
      ∀ b, e.2 = Order.AddBackend b → b.backend_id = app_id ++ "-0")
    ∧ (∀ e ∈ (remove_proxying
        { idGen := g2, next := n2, reads := reads2, sent := [], log := log2 }
        app_id hostname2 path2 ip2 port2).2.sent,
      ∀ b, e.2 = Order.RemoveBackend b → b.backend_id = app_id ++ "-0") := by
  constructor
  · intro e he b hb
    unfold set_up_proxying at he
    by_cases hout : (order_command
        { idGen := g1, next := n1, reads := reads1, sent := [], log := log1 }
        (Order.AddHttpFront
          { app_id := app_id, hostname := hostname1, path_begin := path1 })).1
        = ROutcome.value true
    · rw [andAlso_eq_of_true _ _ hout, order_command_sent, order_command_sent] at he
      simp at he
      rcases he with he | he
      · rw [he] at hb
        exact Order.noConfusion hb
      · rw [he] at hb
        injection hb with h1
        rw [← h1]
    · rw [andAlso_eq_of_not_true _ _ hout, order_command_sent] at he
      simp at he
      rw [he] at hb
      exact Order.noConfusion hb
  · intro e he b hb
    unfold remove_proxying at he
    by_cases hout : (order_command
        { idGen := g2, next := n2, reads := reads2, sent := [], log := log2 }
        (Order.RemoveHttpFront
          { app_id := app_id, hostname := hostname2, path_begin := path2 })).1
        = ROutcome.value true
    · rw [andAlso_eq_of_true _ _ hout, order_command_sent, order_command_sent] at he
      simp at he
      rcases he with he | he
      · rw [he] at hb
        exact Order.noConfusion hb
      · rw [he] at hb
        injection hb with h1
        rw [← h1]
    · rw [andAlso_eq_of_not_true _ _ hout, order_command_sent] at he
      simp at he
      rw [he] at hb
      exact Order.noConfusion hb

/-- Closed witness for `backend_id_agreement`: in concrete successful runs
the `AddBackend` and `RemoveBackend` envelopes for `app_id = "app"` both
carry backend id `"app-0"`, hence they agree. -/
theorem backend_id_agreement_witness :
    ({ app_id := "app", backend_id := "app" ++ "-0", ip_address := "127.0.0.1",
       port := 51000, load_balancing_parameters := none,
       sticky_id := none } : Backend).backend_id = "app" ++ "-0"
    ∧ ({ app_id := "app", backend_id := "app" ++ "-0", ip_address := "127.0.0.1",
         port := 51000 } : RemoveBackendData).backend_id = "app" ++ "-0" :=
  ⟨(backend_id_agreement "app" "example.test" "example.test" "/p" "/p"
      "127.0.0.1" "127.0.0.1" 51000 51000
      (fun n => if n = 0 then "ID-1" else "ID-2")
      (fun n => if n = 0 then "ID-3" else "ID-4") 0 0
      [some { id := "ID-1", status := ConfigMessageStatus.Ok, message := "" },
       some { id := "ID-2", status := ConfigMessageStatus.Ok, message := "" }]
      [some { id := "ID-3", status := ConfigMessageStatus.Ok, message := "" },
       some { id := "ID-4", status := ConfigMessageStatus.Ok, message := "" }]
      [] []).1
    ("ID-2", Order.AddBackend
      { app_id := "app", backend_id := "app" ++ "-0", ip_address := "127.0.0.1",
        port := 51000, load_balancing_parameters := none, sticky_id := none })
    (by decide) _ rfl,
   (backend_id_agreement "app" "example.test" "example.test" "/p" "/p"
      "127.0.0.1" "127.0.0.1" 51000 51000
      (fun n => if n = 0 then "ID-1" else "ID-2")
      (fun n => if n = 0 then "ID-3" else "ID-4") 0 0
      [some { id := "ID-1", status := ConfigMessageStatus.Ok, message := "" },
       some { id := "ID-2", status := ConfigMessageStatus.Ok, message := "" }]
      [some { id := "ID-3", status := ConfigMessageStatus.Ok, message := "" },
       some { id := "ID-4", status := ConfigMessageStatus.Ok, message := "" }]
      [] []).2
    ("ID-4", Order.RemoveBackend
      { app_id := "app", backend_id := "app" ++ "-0", ip_address := "127.0.0.1",
        port := 51000 })
    (by decide) _ rfl⟩
